import Mathlib

/-!
Verification of the retrying HTTP client of the
TalentInc/resume-parsing-service-client repository, as a shallow embedding
of the Go packages `httpclient` (retry configuration, response resolution,
diagnostics) and `rps` (the resume-parsing consumer).

Bytes and rendered messages are modelled as `String`; Go `int` and
`time.Duration` as `Int` (durations in nanoseconds); a nilable Go value as
an `Option`.  Side effects on the response body (reads and closes) are
reified as explicit counters so that resource-handling properties can be
stated.
-/

namespace RPSC

/-- A Go `error` value, identified by its rendered message. -/
structure GoErr where
  msg : String
deriving DecidableEq

/-- `errors.Wrap(err, message)` from github.com/pkg/errors: the rendered
message is the annotation, a colon and a space, then the cause's message. -/
def errorsWrap (err : GoErr) (message : String) : GoErr :=
  { msg := message ++ ": " ++ err.msg }

/-- A response body stream: the bytes it delivers, or - when `readErr` is
set - the I/O error reading it yields instead. -/
structure Body where
  data : String
  readErr : Option GoErr := none
deriving DecidableEq

/-- The `ioReadAll` global of httpclient.go (io.ReadAll): all bytes of the
stream, or the stream's read error. -/
def ioReadAll (b : Body) : Except GoErr String :=
  match b.readErr with
  | some e => Except.error e
  | none => Except.ok b.data

/-- `*http.Response`, restricted to the fields this client reads. -/
structure Response where
  statusCode : Nat
  body : Body
deriving DecidableEq

/-- How often a response body was read and closed along a code path. -/
structure BodyUse where
  reads : Nat := 0
  closes : Nat := 0
deriving DecidableEq

/-- The `HttpError` struct of package httpclient (its field set, as
populated in httpclient.go).  `statusCode = 0` is Go's zero value for the
field: the absent-status sentinel, meaning no response was received. -/
structure HttpError where
  url : String := ""
  statusCode : Nat := 0
  body : String := ""
  err : Option GoErr := none
deriving DecidableEq

/-- `handleUnsuccessfulResponse` from httpclient.go, paired with the body
accesses it performs: in the `statusCode >= 400` branch it defers
`resp.Body.Close()` and calls `ioReadAll` (one read, one close); every
other branch leaves the body untouched. -/
def handleUnsuccessfulResponse (url : String) (resp : Option Response)
    (receivedError : Option GoErr) : Option HttpError × BodyUse :=
  match resp with
  | some r =>
    if r.statusCode ≥ 400 then
      match ioReadAll r.body with
      | Except.error e =>
        (some { url := url, statusCode := r.statusCode,
                err := some (errorsWrap e "parsing response") },
         { reads := 1, closes := 1 })
      | Except.ok s =>
        (some { url := url, statusCode := r.statusCode, body := s,
                err := receivedError },
         { reads := 1, closes := 1 })
    else
      -- Go falls through to the shared `if receivedError != nil` return.
      match receivedError with
      | some e => (some { url := url, err := some e }, {})
      | none => (none, {})
  | none =>
    match receivedError with
    | some e => (some { url := url, err := some e }, {})
    | none => (none, {})

/-- A JSON decoder into a target of type `α`: consumes the body stream and
either fills the target or fails.  This stands for the `jsonDecode` global
of httpclient.go (`json.NewDecoder(r).Decode(data)`, delegated to the
standard library and substituted in the repository's own tests). -/
def Decoder (α : Type) : Type := Body → Except GoErr α

/-- `decodeResponse` from httpclient.go.  `v` is the optional decode
target (the Go empty-interface argument, carried here together with the
decoder that fills it); when target and response are both present the body
is decoded (one read) and deferred-closed (one close). -/
def decodeResponse {α : Type} (url : String) (resp : Option Response)
    (v : Option (Decoder α)) : Option HttpError × Option α × BodyUse :=
  match v with
  | none => (none, none, {})
  | some dec =>
    match resp with
    | none => (none, none, {})
    | some r =>
      match dec r.body with
      | Except.error e =>
        (some { url := url, statusCode := r.statusCode,
                err := some (errorsWrap e "decoding response") },
         none, { reads := 1, closes := 1 })
      | Except.ok a => (none, some a, { reads := 1, closes := 1 })

/-- `context.Context`: opaque to this client, which only threads it
through to the retry predicate. -/
structure Context

/-- `retryablehttp.CheckRetry`: given the context, the response and the
error of one attempt, decide whether to retry, with an optional override
error. -/
def CheckRetry : Type :=
  Context → Option Response → Option GoErr → Bool × Option GoErr

/-- `doNotRetryPolicy` from httpclient.go: never retry. -/
def doNotRetryPolicy : CheckRetry := fun _ _ _ => (false, none)

/-- A configured dump logger (`func(dump []byte)`).  Its invocation is
reified by `logRequestDump` returning the dump handed to it. -/
def DumpLogger : Type := String → Unit

/-- The configuration fields of the `client` struct of httpclient.go.
The embedded retryable client's mutable settings are modelled separately
as `RetryableClientState`.  All defaults are Go zero values. -/
structure ClientConfig where
  maxIdleConns : Int := 0
  maxIdleConnsPerHost : Int := 0
  maxConnsPerHost : Int := 0
  maxRetries : Int := 0
  checkRetryPolicy : Option CheckRetry := none
  retryWaitMin : Int := 0
  retryWaitMax : Int := 0
  requestDumpLogger : Option DumpLogger := none
  dumpRequestBody : Bool := false

/-- The `With*` option functions of package httpclient (options file), as
the data of which option was applied; each Go option is a closure mutating
the client under construction, embedded by `applyOption`. -/
inductive ClientOption where
  | withMaxIdleConns (n : Int)
  | withMaxIdleConnsPerHost (n : Int)
  | withMaxConnsPerHost (n : Int)
  | withMaxRetries (n : Int)
  | withRetryWaitMin (d : Int)
  | withRetryWaitMax (d : Int)
  | withCheckRetryPolicy (p : Option CheckRetry)
  | withRequestDumpLogger (logger : Option DumpLogger) (dumpBody : Bool)

/-- The body of each `With*` option closure of package httpclient. -/
def applyOption (o : ClientOption) (c : ClientConfig) : ClientConfig :=
  match o with
  | .withMaxIdleConns n => { c with maxIdleConns := n }
  | .withMaxIdleConnsPerHost n => { c with maxIdleConnsPerHost := n }
  | .withMaxConnsPerHost n => { c with maxConnsPerHost := n }
  | .withMaxRetries n => { c with maxRetries := n }
  | .withRetryWaitMin d => { c with retryWaitMin := d }
  | .withRetryWaitMax d => { c with retryWaitMax := d }
  | .withCheckRetryPolicy p => { c with checkRetryPolicy := p }
  | .withRequestDumpLogger l b =>
      { c with requestDumpLogger := l, dumpRequestBody := b }

/-- The mutable settings of the wrapped `retryablehttp.Client` that the
`retryableHttpClient` interface exposes (Set* methods of the wrapper). -/
structure RetryableClientState where
  retryMax : Int
  retryWaitMin : Int
  retryWaitMax : Int
  checkRetry : CheckRetry

/-- Modelled from the spec: `retryablehttp.DefaultRetryPolicy`, the policy
a fresh retryablehttp client ships with; per the repository's own comment
it "will always retry when status code >= 500" (and on transport errors),
swallowing the response.  `patchRetryableClient` always overwrites it. -/
def defaultRetryPolicy : CheckRetry := fun _ resp err =>
  match err with
  | some e => (true, some e)
  | none =>
    match resp with
    | some r => (decide (r.statusCode ≥ 500), none)
    | none => (true, none)

/-- Modelled from the spec: the settings of a fresh
`retryablehttp.NewClient()` (retry max 4, wait bounds 1s-30s in
nanoseconds, the library's default retry policy); `New` immediately
re-patches every one of them via `patchRetryableClient`. -/
def newRetryablehttpClient : RetryableClientState :=
  { retryMax := 4, retryWaitMin := 1000000000, retryWaitMax := 30000000000,
    checkRetry := defaultRetryPolicy }

/-- `patchRetryableClient` from httpclient.go: copy the configured limits
onto the retryable client, install `doNotRetryPolicy`, then replace it
with the custom policy when one is configured. -/
def patchRetryableClient (c : ClientConfig) (s : RetryableClientState) :
    RetryableClientState :=
  let s1 := { s with retryMax := c.maxRetries }
  let s2 := { s1 with retryWaitMin := c.retryWaitMin }
  let s3 := { s2 with retryWaitMax := c.retryWaitMax }
  let s4 := { s3 with checkRetry := doNotRetryPolicy }
  match c.checkRetryPolicy with
  | some p => { s4 with checkRetry := p }
  | none => s4

/-- `newClient` from httpclient.go: start from the zero-valued client and
apply every option in order. -/
def newClient (options : List ClientOption) : ClientConfig :=
  options.foldl (fun c o => applyOption o c) {}

/-- A constructed client: its configuration together with the patched
retryable client it owns. -/
structure PatchedClient where
  cfg : ClientConfig
  rstate : RetryableClientState

/-- `New` from httpclient.go. -/
def New (options : List ClientOption) : PatchedClient :=
  let c := newClient options
  { cfg := c, rstate := patchRetryableClient c newRetryablehttpClient }

/-- One network attempt's outcome: at most one received response and/or
one transport error. -/
def AttemptOutcome : Type := Option Response × Option GoErr

/-- Modelled from the spec: the "giving up after N attempt(s)" transport
error the retry loop returns when retries are exhausted, wrapping the
last attempt's error, if any. -/
def givingUpError (attempts : Nat) (lastErr : Option GoErr) : GoErr :=
  { msg := "giving up after " ++ toString attempts ++ " attempt(s)" ++
      (match lastErr with
       | some e => ": " ++ e.msg
       | none => "") }

/-- Modelled from the spec: the retry loop of go-retryablehttp's
`Client.Do` (the RetryExecutor; a dependency, not part of src): perform an
attempt, ask the retry predicate; stop immediately with the attempt's
outcome on "do not retry"; on "retry" repeat while retries remain, else
give up.  `attempt i` is the outcome of the i-th (0-based) network
attempt, `remain` the retries still allowed, `i` the attempts already
made; the second component of the result counts attempts performed. -/
def retryLoopAux (check : CheckRetry) (attempt : Nat → AttemptOutcome) :
    Nat → Nat → AttemptOutcome × Nat
  | 0, i =>
    let out := attempt i
    if (check Context.mk out.1 out.2).1 then
      ((none, some (givingUpError (i + 1) out.2)), i + 1)
    else (out, i + 1)
  | remain + 1, i =>
    let out := attempt i
    if (check Context.mk out.1 out.2).1 then
      retryLoopAux check attempt remain (i + 1)
    else (out, i + 1)

/-- Modelled from the spec: `Do` on the retryable client with `retryMax`
retries configured (a non-positive maximum allows none). -/
def retryLoop (check : CheckRetry) (retryMax : Int)
    (attempt : Nat → AttemptOutcome) : AttemptOutcome × Nat :=
  retryLoopAux check attempt retryMax.toNat 0

/-- An outgoing `*http.Request`, restricted to what this client and the
dump serializer use: method, URL, headers and the body bytes. -/
structure Request where
  method : String
  url : String
  headers : List (String × String)
  body : String

/-- The wire-format request line and headers of an outgoing request; the
body never appears here. -/
def wireHeader (req : Request) : String :=
  req.method ++ " " ++ req.url ++ " HTTP/1.1\x0D\x0A" ++
  String.join (req.headers.map (fun h => h.1 ++ ": " ++ h.2 ++ "\x0D\x0A")) ++
  "\x0D\x0A"

/-- Modelled from the spec: `httputil.DumpRequestOut` (the standard
library serializer behind the `dumpRequestOut` global of httpclient.go):
serialize the outgoing request to wire format, headers always, the body
only when `body` is true. -/
def dumpRequestOut (req : Request) (body : Bool) : Except GoErr String :=
  Except.ok (wireHeader req ++ (if body then req.body else ""))

/-- `logRequestDump` from httpclient.go, parameterized by the
`dumpRequestOut` global (a mockable variable in the source): returns the
dump handed to the configured logger, or `none` when no logger is
configured or serialization failed (the failure is swallowed). -/
def logRequestDump (dumpOut : Request → Bool → Except GoErr String)
    (c : ClientConfig) (req : Request) : Option String :=
  match c.requestDumpLogger with
  | none => none
  | some _ =>
    match dumpOut req c.dumpRequestBody with
    | Except.ok dump => some dump
    | Except.error _ => none

/-- `client.do` from httpclient.go, after the retryable client's `Do` has
returned `(resp, err)`: classify via `handleUnsuccessfulResponse`,
returning early on its error, then decode via `decodeResponse`; the body
accesses of both steps are accumulated. -/
def clientDo {α : Type} (url : String) (resp : Option Response)
    (err : Option GoErr) (v : Option (Decoder α)) :
    Option Response × Option HttpError × Option α × BodyUse :=
  match handleUnsuccessfulResponse url resp err with
  | (some e, u) => (resp, some e, none, u)
  | (none, u) =>
    match decodeResponse url resp v with
    | (some e, _, u2) =>
      (resp, some e, none,
       { reads := u.reads + u2.reads, closes := u.closes + u2.closes })
    | (none, a, u2) =>
      (resp, none, a,
       { reads := u.reads + u2.reads, closes := u.closes + u2.closes })

/-- Everything one call to `client.sendRequest` produces: the dump handed
to the logger (if any), the response, the structured error, the decoded
value, the body accesses, and the number of attempts made. -/
structure SendResult (α : Type) where
  dumped : Option String
  resp : Option Response
  httpErr : Option HttpError
  decoded : Option α
  use : BodyUse
  attempts : Nat

/-- `client.sendRequest` from httpclient.go: emit the best-effort request
dump, then run the retryable client's `Do` (the retry loop over the
supplied per-attempt transport behavior) and resolve the final outcome
through `client.do` with `req.URL.String()` as the url. -/
def sendRequest {α : Type} (dumpOut : Request → Bool → Except GoErr String)
    (cl : PatchedClient) (attempt : Nat → AttemptOutcome) (req : Request)
    (v : Option (Decoder α)) : SendResult α :=
  let dumped := logRequestDump dumpOut cl.cfg req
  let r := retryLoop cl.rstate.checkRetry cl.rstate.retryMax attempt
  let d := clientDo req.url r.1.1 r.1.2 v
  { dumped := dumped, resp := d.1, httpErr := d.2.1, decoded := d.2.2.1,
    use := d.2.2.2, attempts := r.2 }

/-- `client.SendRequest`: send without a decode target. -/
def SendRequest (dumpOut : Request → Bool → Except GoErr String)
    (cl : PatchedClient) (attempt : Nat → AttemptOutcome) (req : Request) :
    SendResult Unit :=
  sendRequest dumpOut cl attempt req none

/-- `client.SendRequestAndUnmarshallJsonResponse`: send with a decode
target. -/
def SendRequestAndUnmarshallJsonResponse {α : Type}
    (dumpOut : Request → Bool → Except GoErr String) (cl : PatchedClient)
    (attempt : Nat → AttemptOutcome) (req : Request) (dec : Decoder α) :
    SendResult α :=
  sendRequest dumpOut cl attempt req (some dec)

/-- Modelled from the spec: the rendering (`Error()` method) of
`HttpError` - defined in a repository file that is not under src, used by
httpclient.go and pinned verbatim by the repository's tests - status part:
the code, or "no status" when no response was received (zero value). -/
def HttpError.statusText (e : HttpError) : String :=
  if e.statusCode = 0 then "no status" else toString e.statusCode

/-- Modelled from the spec: cause part of the `HttpError` rendering -
the cause's message, or "<nil>" for an absent cause. -/
def HttpError.causeText (e : HttpError) : String :=
  match e.err with
  | some c => c.msg
  | none => "<nil>"

/-- Modelled from the spec: the full `HttpError` rendering,
`request to <url> failed. httpStatus: [ <code|no status> ]
responseBody: [ <body> ] error: [ <cause|<nil>> ]`. -/
def HttpError.render (e : HttpError) : String :=
  "request to " ++ e.url ++ " failed. httpStatus: [ " ++ e.statusText ++
  " ] responseBody: [ " ++ e.body ++ " ] error: [ " ++ e.causeText ++ " ]"

/-- What `resumeParsingServiceClient.ParseDocument` (rps package) produces,
at the resolution relevant here: the decoded resume value (if the decoder
ran and succeeded), the returned error, the total accesses to the final
response's body across the whole client stack, and the attempts made. -/
structure ParseResult (α : Type) where
  resume : Option α
  err : Option GoErr
  use : BodyUse
  attempts : Nat

/-- `resumeParsingServiceClient.ParseDocument` from the rps package, from
the point where the request has been built: call
`SendRequestAndUnmarshallJsonResponse` with the `&resume` decode target;
on error return it wrapped with "performing request"; on success run the
deferred `resp.Body.Close()` - one further close - and return the resume.
Go dereferences `resp` in that deferred close, so the close is counted
when a response is present (a nil response on this path would fault). -/
def ParseDocument {α : Type}
    (dumpOut : Request → Bool → Except GoErr String) (cl : PatchedClient)
    (attempt : Nat → AttemptOutcome) (req : Request) (dec : Decoder α) :
    ParseResult α :=
  let r := SendRequestAndUnmarshallJsonResponse dumpOut cl attempt req dec
  match r.httpErr with
  | some e =>
    { resume := none,
      err := some (errorsWrap { msg := e.render } "performing request"),
      use := r.use, attempts := r.attempts }
  | none =>
    { resume := r.decoded, err := none,
      use := { r.use with
                closes := r.use.closes + (if r.resp.isSome then 1 else 0) },
      attempts := r.attempts }

/-- A tiny concrete JSON decoder used to exercise the pipeline on closed
inputs: decodes the JSON text "7" into the number 7, failing on a stream
error or any other text (standing in for the stdlib decoder, which the
repository's own tests substitute the same way). -/
def decNat : Decoder Nat := fun b =>
  match b.readErr with
  | some e => Except.error e
  | none => if b.data = "7" then Except.ok 7 else Except.error { msg := "invalid json" }

/-- Applying any option other than `WithCheckRetryPolicy` leaves the
`checkRetryPolicy` field untouched. -/
theorem applyOption_checkRetryPolicy (o : ClientOption) (c : ClientConfig)
    (h : ∀ p, o ≠ ClientOption.withCheckRetryPolicy p) :
    (applyOption o c).checkRetryPolicy = c.checkRetryPolicy := by
  cases o with
  | withCheckRetryPolicy p => exact absurd rfl (h p)
  | withMaxIdleConns n => rfl
  | withMaxIdleConnsPerHost n => rfl
  | withMaxConnsPerHost n => rfl
  | withMaxRetries n => rfl
  | withRetryWaitMin d => rfl
  | withRetryWaitMax d => rfl
  | withRequestDumpLogger l b => rfl

/-- Option application preserves `checkRetryPolicy` when no
`WithCheckRetryPolicy` option occurs in the list. -/
theorem foldl_checkRetryPolicy :
    ∀ (options : List ClientOption) (c : ClientConfig),
      (∀ o ∈ options, ∀ p, o ≠ ClientOption.withCheckRetryPolicy p) →
      (options.foldl (fun c o => applyOption o c) c).checkRetryPolicy
        = c.checkRetryPolicy
  | [], _, _ => rfl
  | o :: os, c, h => by
    simp only [List.foldl_cons]
    rw [foldl_checkRetryPolicy os _
        (fun o' ho' => h o' (List.mem_cons_of_mem _ ho')),
      applyOption_checkRetryPolicy o c (h o (List.mem_cons_self _ _))]

/-- A client built without `WithCheckRetryPolicy` has `doNotRetryPolicy`
installed on its retryable client. -/
theorem New_checkRetry_default (options : List ClientOption)
    (h : ∀ o ∈ options, ∀ p, o ≠ ClientOption.withCheckRetryPolicy p) :
    (New options).rstate.checkRetry = doNotRetryPolicy := by
  have hnone : (newClient options).checkRetryPolicy = none :=
    foldl_checkRetryPolicy options {} h
  simp [New, patchRetryableClient, hnone]

/-- A retry predicate answering "do not retry" stops the loop with the
current attempt as the final outcome. -/
theorem retryLoopAux_stop (check : CheckRetry) (attempt : Nat → AttemptOutcome)
    (remain i : Nat)
    (h : (check Context.mk (attempt i).1 (attempt i).2).1 = false) :
    retryLoopAux check attempt remain i = (attempt i, i + 1) := by
  cases remain <;> simp [retryLoopAux, h]

/-- A retry predicate answering "retry" with retries remaining moves the
loop to the next attempt. -/
theorem retryLoopAux_step (check : CheckRetry) (attempt : Nat → AttemptOutcome)
    (remain i : Nat)
    (h : (check Context.mk (attempt i).1 (attempt i).2).1 = true) :
    retryLoopAux check attempt (remain + 1) i
      = retryLoopAux check attempt remain (i + 1) := by
  simp [retryLoopAux, h]

/-- Exact attempt count of the retry loop: if the predicate retries the
first `N - 1` attempts and stops on attempt `N`, with enough retries
remaining, the loop performs exactly `N` attempts and the `N`-th attempt's
outcome is final. -/
theorem retryLoopAux_exact (check : CheckRetry) (attempt : Nat → AttemptOutcome) :
    ∀ (N : Nat), 1 ≤ N → ∀ (remain i : Nat), N ≤ remain + 1 →
    (∀ d, d + 1 < N →
      (check Context.mk (attempt (i + d)).1 (attempt (i + d)).2).1 = true) →
    (check Context.mk (attempt (i + (N - 1))).1 (attempt (i + (N - 1))).2).1
      = false →
    retryLoopAux check attempt remain i = (attempt (i + (N - 1)), i + N) := by
  intro N
  induction N with
  | zero => intro h; exact absurd h (by decide)
  | succ n ih =>
    intro _ remain i hle htrue hfalse
    by_cases hn : n = 0
    · subst hn
      have hstop : (check Context.mk (attempt i).1 (attempt i).2).1 = false := by
        simpa using hfalse
      simpa using retryLoopAux_stop check attempt remain i hstop
    · have h1 : 1 ≤ n := Nat.one_le_iff_ne_zero.mpr hn
      have hstep : (check Context.mk (attempt i).1 (attempt i).2).1 = true := by
        simpa using htrue 0 (by omega)
      obtain ⟨r, rfl⟩ : ∃ r, remain = r + 1 := ⟨remain - 1, by omega⟩
      rw [retryLoopAux_step check attempt r i hstep]
      have hrec := ih h1 r (i + 1) (by omega)
        (fun d hd => by
          have h3 : i + 1 + d = i + (d + 1) := by omega
          rw [h3]
          exact htrue (d + 1) (by omega))
        (by
          have h4 : i + 1 + (n - 1) = i + (n + 1 - 1) := by omega
          rw [h4]
          exact hfalse)
      have h5 : i + 1 + (n - 1) = i + (n + 1 - 1) := by omega
      have h6 : i + 1 + n = i + (n + 1) := by omega
      rw [h5, h6] at hrec
      exact hrec

/-- `retryLoopAux_exact` lifted to `retryLoop` (first attempt has index 0). -/
theorem retryLoop_exact (check : CheckRetry) (retryMax : Int)
    (attempt : Nat → AttemptOutcome) (N : Nat) (h1 : 1 ≤ N)
    (h2 : N ≤ retryMax.toNat + 1)
    (htrue : ∀ d, d + 1 < N →
      (check Context.mk (attempt d).1 (attempt d).2).1 = true)
    (hfalse :
      (check Context.mk (attempt (N - 1)).1 (attempt (N - 1)).2).1 = false) :
    retryLoop check retryMax attempt = (attempt (N - 1), N) := by
  unfold retryLoop
  have h := retryLoopAux_exact check attempt N h1 retryMax.toNat 0 h2
    (fun d hd => by simpa using htrue d hd) (by simpa using hfalse)
  simpa using h

/-- C1: a client constructed without `WithCheckRetryPolicy` has the
do-not-retry policy - which answers (false, nil) on every context,
response and error - installed on its retryable client, so any single
attempt yielding a status >= 400 or a transport error is the final outcome
after exactly one attempt; a supplied custom policy replaces the default. -/
theorem C1_default_policy_never_retries :
    (∀ (ctx : Context) (resp : Option Response) (err : Option GoErr),
      doNotRetryPolicy ctx resp err = (false, none)) ∧
    (∀ options : List ClientOption,
      (∀ o ∈ options, ∀ p, o ≠ ClientOption.withCheckRetryPolicy p) →
      (New options).rstate.checkRetry = doNotRetryPolicy ∧
      ∀ attempt : Nat → AttemptOutcome,
        ((∃ r, (attempt 0).1 = some r ∧ 400 ≤ r.statusCode) ∨
          (attempt 0).2.isSome = true) →
        retryLoop (New options).rstate.checkRetry (New options).rstate.retryMax
            attempt
          = (attempt 0, 1)) ∧
    (∀ (options : List ClientOption) (p : CheckRetry),
      (New
        (options ++ [ClientOption.withCheckRetryPolicy (some p)])).rstate.checkRetry
          = p) := by
  refine ⟨fun _ _ _ => rfl, ?_, ?_⟩
  · intro options h
    have hd := New_checkRetry_default options h
    refine ⟨hd, ?_⟩
    intro attempt _
    rw [hd]
    unfold retryLoop
    cases (New options).rstate.retryMax.toNat <;>
      simp [retryLoopAux, doNotRetryPolicy]
  · intro options p
    have hsome :
        (newClient
          (options ++
            [ClientOption.withCheckRetryPolicy (some p)])).checkRetryPolicy
          = some p := by
      unfold newClient
      rw [List.foldl_append]
      rfl
    simp [New, patchRetryableClient, hsome]

/-- Witness for C1: building with only `WithMaxRetries 3` installs
`doNotRetryPolicy`, and a single 502 attempt is final after one attempt. -/
theorem C1_default_policy_never_retries_witness :
    (New [ClientOption.withMaxRetries 3]).rstate.checkRetry = doNotRetryPolicy ∧
    retryLoop (New [ClientOption.withMaxRetries 3]).rstate.checkRetry
        (New [ClientOption.withMaxRetries 3]).rstate.retryMax
        (fun _ => (some { statusCode := 502, body := { data := "" } }, none))
      = ((some { statusCode := 502, body := { data := "" } }, none), 1) := by
  have h := C1_default_policy_never_retries.2.1 [ClientOption.withMaxRetries 3]
    (by
      intro o ho p
      rw [List.mem_singleton] at ho
      subst ho
      exact fun hh => ClientOption.noConfusion hh)
  exact ⟨h.1, h.2 _ (Or.inl ⟨_, rfl, by decide⟩)⟩

/-- C2: for a final outcome carrying a response with status >= 400, the
structured error holds that status; when the body read succeeds the
error's body is exactly the bytes read and its cause is the original
error (possibly nil); when the body read fails the body field is empty
and the cause is the wrapped read failure, not the original error. -/
theorem C2_unsuccessful_body_capture (url : String) (r : Response)
    (receivedError : Option GoErr) (h : 400 ≤ r.statusCode) :
    (r.body.readErr = none →
      handleUnsuccessfulResponse url (some r) receivedError
        = (some { url := url, statusCode := r.statusCode, body := r.body.data,
                  err := receivedError },
           { reads := 1, closes := 1 })) ∧
    (∀ re, r.body.readErr = some re →
      handleUnsuccessfulResponse url (some r) receivedError
        = (some { url := url, statusCode := r.statusCode, body := "",
                  err := some (errorsWrap re "parsing response") },
           { reads := 1, closes := 1 })) := by
  constructor
  · intro hnone
    simp [handleUnsuccessfulResponse, ioReadAll, hnone, ge_iff_le, h]
  · intro re hre
    simp [handleUnsuccessfulResponse, ioReadAll, hre, ge_iff_le, h]

/-- Witness for C2: a 500 with readable body "oops" captures "oops" with
nil cause; a 500 whose body read fails captures an empty body with the
wrapped read error, losing the original error. -/
theorem C2_unsuccessful_body_capture_witness :
    handleUnsuccessfulResponse "http://s/u"
        (some { statusCode := 500, body := { data := "oops" } }) none
      = (some { url := "http://s/u", statusCode := 500, body := "oops",
                err := none },
         { reads := 1, closes := 1 }) ∧
    handleUnsuccessfulResponse "http://s/u"
        (some { statusCode := 500,
                body := { data := "oops",
                          readErr := some { msg := "random error" } } })
        (some { msg := "original error" })
      = (some { url := "http://s/u", statusCode := 500, body := "",
                err := some (errorsWrap { msg := "random error" }
                  "parsing response") },
         { reads := 1, closes := 1 }) := by
  constructor
  · exact (C2_unsuccessful_body_capture "http://s/u" _ none (by decide)).1 rfl
  · exact (C2_unsuccessful_body_capture "http://s/u" _ _ (by decide)).2 _ rfl

/-- C3: for a final outcome with a non-error response (status < 400) and a
supplied decode target, the body is decoded directly into the target and
closed; a decode failure yields a structured error with the original
status code and a cause wrapped with "decoding response"; a body the
decoder accepts decodes to exactly the direct decode of those bytes. -/
theorem C3_decode_target {α : Type} (url : String) (r : Response)
    (dec : Decoder α) (h : r.statusCode < 400) :
    (∀ a, dec r.body = Except.ok a →
      clientDo url (some r) none (some dec)
        = (some r, none, some a, { reads := 1, closes := 1 })) ∧
    (∀ e, dec r.body = Except.error e →
      clientDo url (some r) none (some dec)
        = (some r,
           some { url := url, statusCode := r.statusCode, body := "",
                  err := some (errorsWrap e "decoding response") },
           none, { reads := 1, closes := 1 })) := by
  have h' : ¬ (400 ≤ r.statusCode) := by omega
  constructor
  · intro a ha
    simp [clientDo, handleUnsuccessfulResponse, decodeResponse, ge_iff_le, h', ha]
  · intro e he
    simp [clientDo, handleUnsuccessfulResponse, decodeResponse, ge_iff_le, h', he]

/-- Witness for C3: a 200 response with body "7" decodes to 7 under
`decNat`; a 200 response with body "x" fails with the wrapped decode
error carrying status 200. -/
theorem C3_decode_target_witness :
    clientDo "http://s/u" (some { statusCode := 200, body := { data := "7" } })
        none (some decNat)
      = (some { statusCode := 200, body := { data := "7" } }, none, some 7,
         { reads := 1, closes := 1 }) ∧
    clientDo "http://s/u" (some { statusCode := 200, body := { data := "x" } })
        none (some decNat)
      = (some { statusCode := 200, body := { data := "x" } },
         some { url := "http://s/u", statusCode := 200, body := "",
                err := some (errorsWrap { msg := "invalid json" }
                  "decoding response") },
         none, { reads := 1, closes := 1 }) := by
  constructor
  · exact (C3_decode_target "http://s/u" _ decNat (by decide)).1 7 rfl
  · exact (C3_decode_target "http://s/u" _ decNat (by decide)).2 _ rfl

/-- C10: when the underlying `Do` yields both a response with status below
400 and a non-nil error, the structured error carries that error as cause
with the absent-status sentinel (zero value) and an empty body, and the
response body is neither read nor closed before the error is returned. -/
theorem C10_error_beside_ok_response (url : String) (r : Response) (e : GoErr)
    (h : r.statusCode < 400) :
    handleUnsuccessfulResponse url (some r) (some e)
      = (some { url := url, statusCode := 0, body := "", err := some e },
         { reads := 0, closes := 0 }) ∧
    (∀ (α : Type) (v : Option (Decoder α)),
      clientDo url (some r) (some e) v
        = (some r,
           some { url := url, statusCode := 0, body := "", err := some e },
           none, { reads := 0, closes := 0 })) := by
  have h' : ¬ (400 ≤ r.statusCode) := by omega
  constructor
  · simp [handleUnsuccessfulResponse, ge_iff_le, h']
  · intro α v
    simp [clientDo, handleUnsuccessfulResponse, ge_iff_le, h']

/-- Witness for C10: a 200 response arriving together with an error. -/
theorem C10_error_beside_ok_response_witness :
    clientDo "http://s/u" (some { statusCode := 200, body := { data := "hi" } })
        (some { msg := "random error" }) (some decNat)
      = (some { statusCode := 200, body := { data := "hi" } },
         some { url := "http://s/u", statusCode := 0, body := "",
                err := some { msg := "random error" } },
         none, { reads := 0, closes := 0 }) := by
  exact (C10_error_beside_ok_response "http://s/u" _ _ (by decide)).2 Nat
    (some decNat)

/-- A concrete retry predicate for closed runs: retry exactly when the
attempt had a transport error (the shape of the repository's own
EOF-retry test policy). -/
def retryOnErrPolicy : CheckRetry := fun _ _ e => (e.isSome, none)

/-- A concrete transport behavior for closed runs: the first attempt fails
with an EOF transport error, every later attempt returns 200. -/
def attemptsEofThenOk : Nat → AttemptOutcome := fun i =>
  if i = 0 then (none, some { msg := "EOF" })
  else (some { statusCode := 200, body := { data := "" } }, none)

/-- C4: with a custom retry policy installed, if the predicate answers
"retry" after each of the first N - 1 attempts and "do not retry" on
attempt N, with N <= max_retries + 1, the executor performs exactly N
attempts and attempt N's outcome is final (so a "do not retry" answer
stops the loop immediately, and max_retries = 0 forces N = 1). -/
theorem C4_custom_policy_attempt_count (options : List ClientOption)
    (p : CheckRetry) (attempt : Nat → AttemptOutcome) (N : Nat)
    (hp : (newClient options).checkRetryPolicy = some p)
    (h1 : 1 ≤ N) (h2 : N ≤ (New options).rstate.retryMax.toNat + 1)
    (htrue : ∀ d, d + 1 < N →
      (p Context.mk (attempt d).1 (attempt d).2).1 = true)
    (hfalse : (p Context.mk (attempt (N - 1)).1 (attempt (N - 1)).2).1 = false) :
    retryLoop (New options).rstate.checkRetry (New options).rstate.retryMax
        attempt
      = (attempt (N - 1), N) := by
  have hck : (New options).rstate.checkRetry = p := by
    simp [New, patchRetryableClient, hp]
  rw [hck]
  exact retryLoop_exact p _ attempt N h1 h2 htrue hfalse

/-- Witness for C4: max_retries = 2 with the retry-on-error policy; the
first attempt fails with EOF, the second succeeds, so exactly 2 attempts
are made and the 200 response is final. -/
theorem C4_custom_policy_attempt_count_witness :
    retryLoop
        (New [ClientOption.withMaxRetries 2,
          ClientOption.withCheckRetryPolicy
            (some retryOnErrPolicy)]).rstate.checkRetry
        (New [ClientOption.withMaxRetries 2,
          ClientOption.withCheckRetryPolicy
            (some retryOnErrPolicy)]).rstate.retryMax
        attemptsEofThenOk
      = ((some { statusCode := 200, body := { data := "" } }, none), 2) := by
  have h := C4_custom_policy_attempt_count
    [ClientOption.withMaxRetries 2,
      ClientOption.withCheckRetryPolicy (some retryOnErrPolicy)]
    retryOnErrPolicy attemptsEofThenOk 2 rfl (by decide) (by decide)
    (fun d hd => by
      have hd0 : d = 0 := by omega
      subst hd0
      rfl)
    rfl
  simpa [attemptsEofThenOk] using h

/-- C5: a client built with all defaults against a server that always
answers 502 with an empty body: `SendRequest` makes one attempt and
returns the structured error rendering exactly
`request to <url> failed. httpStatus: [ 502 ] responseBody: [  ] error: [ <nil> ]`. -/
theorem C5_bad_gateway_rendering (url : String) :
    let req : Request := { method := "GET", url := url, headers := [], body := "" }
    let attempt : Nat → AttemptOutcome :=
      fun _ => (some { statusCode := 502, body := { data := "" } }, none)
    let r := SendRequest dumpRequestOut (New []) attempt req
    r.attempts = 1 ∧
    ∃ e, r.httpErr = some e ∧
      e.render = "request to " ++ url ++
        " failed. httpStatus: [ 502 ] responseBody: [  ] error: [ <nil> ]" := by
  refine ⟨rfl, { url := url, statusCode := 502, body := "", err := none },
    rfl, ?_⟩
  simp only [HttpError.render, HttpError.statusText, HttpError.causeText]
  simp only [String.append_assoc]
  congr 1

/-- The configuration fields of the `resumeParsingServiceClient` struct of
the rps package that options and the constructor populate (the owned
`httpClient` is assigned only inside the constructor and is modelled by
the `PatchedClient` it wraps, so it is not a field here). -/
structure RpsConfig where
  rioParseToken : String := ""
  rioParseBaseUrl : String := ""
  checkRetryPolicy : Option CheckRetry := none
  maxIdleConns : Int := 0
  maxIdleConnsPerHost : Int := 0
  maxConnsPerHost : Int := 0
  maxRetries : Int := 0
  retryWaitMin : Int := 0
  retryWaitMax : Int := 0
  requestDumpLogger : Option DumpLogger := none
  dumpRequestBody : Bool := false

/-- The `With*` option functions of the rps package (its options file). -/
inductive RpsOption where
  | withMaxIdleConns (n : Int)
  | withMaxIdleConnsPerHost (n : Int)
  | withMaxConnsPerHost (n : Int)
  | withMaxRetries (n : Int)
  | withRetryWaitMin (d : Int)
  | withRetryWaitMax (d : Int)
  | withCheckRetryPolicy (p : Option CheckRetry)
  | withRequestDumpLogger (logger : Option DumpLogger) (dumpBody : Bool)

/-- The body of each `With*` option closure of the rps package. -/
def applyRpsOption (o : RpsOption) (c : RpsConfig) : RpsConfig :=
  match o with
  | .withMaxIdleConns n => { c with maxIdleConns := n }
  | .withMaxIdleConnsPerHost n => { c with maxIdleConnsPerHost := n }
  | .withMaxConnsPerHost n => { c with maxConnsPerHost := n }
  | .withMaxRetries n => { c with maxRetries := n }
  | .withRetryWaitMin d => { c with retryWaitMin := d }
  | .withRetryWaitMax d => { c with retryWaitMax := d }
  | .withCheckRetryPolicy p => { c with checkRetryPolicy := p }
  | .withRequestDumpLogger l b =>
      { c with requestDumpLogger := l, dumpRequestBody := b }

/-- The component-wise view of one call's main request/response outcome:
everything `sendRequest` produces except the diagnostic dump. -/
def mainOutcome {α : Type} (r : SendResult α) :
    Option Response × Option HttpError × Option α × BodyUse × Nat :=
  (r.resp, r.httpErr, r.decoded, r.use, r.attempts)

/-- C6 counterexample: on the success path of `ParseDocument` (200
response, decodable body) the final response's body is closed twice -
once by `decodeResponse`'s deferred close and once more by
`ParseDocument`'s own deferred close - so the claimed exactly-once close
fails at this input. -/
theorem C6_counterexample :
    (ParseDocument dumpRequestOut (New [])
        (fun _ => (some { statusCode := 200, body := { data := "7" } }, none))
        { method := "POST", url := "http://s/u", headers := [], body := "" }
        decNat).use.closes = 2 ∧
    ¬ ((ParseDocument dumpRequestOut (New [])
        (fun _ => (some { statusCode := 200, body := { data := "7" } }, none))
        { method := "POST", url := "http://s/u", headers := [], body := "" }
        decNat).use.closes = 1) := by
  constructor
  · rfl
  · intro h
    exact absurd h (by decide)

/-- C6 amended: on every success path of `ParseDocument` (final outcome a
response with status < 400 and no error, body the decoder accepts) the
body is read exactly once and closed exactly twice - once by
`decodeResponse` and once by `ParseDocument`'s deferred close - never
zero times. -/
theorem C6_success_path_close_twice {α : Type}
    (dumpOut : Request → Bool → Except GoErr String) (cl : PatchedClient)
    (attempt : Nat → AttemptOutcome) (req : Request) (dec : Decoder α)
    (r : Response) (a : α) (n : Nat)
    (hfinal : retryLoop cl.rstate.checkRetry cl.rstate.retryMax attempt
      = ((some r, none), n))
    (hstatus : r.statusCode < 400)
    (hdec : dec r.body = Except.ok a) :
    (ParseDocument dumpOut cl attempt req dec).use
      = { reads := 1, closes := 2 } ∧
    (ParseDocument dumpOut cl attempt req dec).resume = some a := by
  have h' : ¬ (400 ≤ r.statusCode) := by omega
  constructor <;>
    simp [ParseDocument, SendRequestAndUnmarshallJsonResponse, sendRequest,
      hfinal, clientDo, handleUnsuccessfulResponse, decodeResponse,
      ge_iff_le, h', hdec]

/-- Witness for C6 amended: the counterexample scenario, derived from the
amended theorem. -/
theorem C6_success_path_close_twice_witness :
    (ParseDocument dumpRequestOut (New [])
        (fun _ => (some { statusCode := 200, body := { data := "7" } }, none))
        { method := "POST", url := "http://s/u", headers := [], body := "" }
        decNat).use
      = { reads := 1, closes := 2 } := by
  exact (C6_success_path_close_twice dumpRequestOut (New [])
    (fun _ => (some { statusCode := 200, body := { data := "7" } }, none))
    { method := "POST", url := "http://s/u", headers := [], body := "" }
    decNat { statusCode := 200, body := { data := "7" } } 7 1 rfl (by decide)
    rfl).1

/-- C7 counterexample: applying `WithRequestDumpLogger` to the zero-valued
client mutates two fields, `requestDumpLogger` and `dumpRequestBody`, so
"every option mutates exactly one field" fails at this option. -/
theorem C7_counterexample :
    ((applyOption
        (ClientOption.withRequestDumpLogger (some (fun _ => ())) true)
        {}).requestDumpLogger ≠ ({} : ClientConfig).requestDumpLogger) ∧
    ((applyOption
        (ClientOption.withRequestDumpLogger (some (fun _ => ())) true)
        {}).dumpRequestBody ≠ ({} : ClientConfig).dumpRequestBody) := by
  exact ⟨fun h => Option.noConfusion h, fun h => Bool.noConfusion h⟩

/-- C7 amended: in both packages, each of the seven single-valued options
mutates exactly its own field and leaves every other configuration field
unchanged, while `WithRequestDumpLogger` mutates exactly the two fields
`requestDumpLogger` and `dumpRequestBody` and leaves the rest unchanged. -/
theorem C7_option_frames :
    (∀ (c : ClientConfig) (n : Int),
      (applyOption (ClientOption.withMaxIdleConns n) c).maxIdleConns = n ∧
      (applyOption (ClientOption.withMaxIdleConns n) c).maxIdleConnsPerHost
        = c.maxIdleConnsPerHost ∧
      (applyOption (ClientOption.withMaxIdleConns n) c).maxConnsPerHost
        = c.maxConnsPerHost ∧
      (applyOption (ClientOption.withMaxIdleConns n) c).maxRetries
        = c.maxRetries ∧
      (applyOption (ClientOption.withMaxIdleConns n) c).checkRetryPolicy
        = c.checkRetryPolicy ∧
      (applyOption (ClientOption.withMaxIdleConns n) c).retryWaitMin
        = c.retryWaitMin ∧
      (applyOption (ClientOption.withMaxIdleConns n) c).retryWaitMax
        = c.retryWaitMax ∧
      (applyOption (ClientOption.withMaxIdleConns n) c).requestDumpLogger
        = c.requestDumpLogger ∧
      (applyOption (ClientOption.withMaxIdleConns n) c).dumpRequestBody
        = c.dumpRequestBody) ∧
    (∀ (c : ClientConfig) (n : Int),
      (applyOption (ClientOption.withMaxIdleConnsPerHost n) c).maxIdleConnsPerHost
        = n ∧
      (applyOption (ClientOption.withMaxIdleConnsPerHost n) c).maxIdleConns
        = c.maxIdleConns ∧
      (applyOption (ClientOption.withMaxIdleConnsPerHost n) c).maxConnsPerHost
        = c.maxConnsPerHost ∧
      (applyOption (ClientOption.withMaxIdleConnsPerHost n) c).maxRetries
        = c.maxRetries ∧
      (applyOption (ClientOption.withMaxIdleConnsPerHost n) c).checkRetryPolicy
        = c.checkRetryPolicy ∧
      (applyOption (ClientOption.withMaxIdleConnsPerHost n) c).retryWaitMin
        = c.retryWaitMin ∧
      (applyOption (ClientOption.withMaxIdleConnsPerHost n) c).retryWaitMax
        = c.retryWaitMax ∧
      (applyOption (ClientOption.withMaxIdleConnsPerHost n) c).requestDumpLogger
        = c.requestDumpLogger ∧
      (applyOption (ClientOption.withMaxIdleConnsPerHost n) c).dumpRequestBody
        = c.dumpRequestBody) ∧
    (∀ (c : ClientConfig) (n : Int),
      (applyOption (ClientOption.withMaxConnsPerHost n) c).maxConnsPerHost = n ∧
      (applyOption (ClientOption.withMaxConnsPerHost n) c).maxIdleConns
        = c.maxIdleConns ∧
      (applyOption (ClientOption.withMaxConnsPerHost n) c).maxIdleConnsPerHost
        = c.maxIdleConnsPerHost ∧
      (applyOption (ClientOption.withMaxConnsPerHost n) c).maxRetries
        = c.maxRetries ∧
      (applyOption (ClientOption.withMaxConnsPerHost n) c).checkRetryPolicy
        = c.checkRetryPolicy ∧
      (applyOption (ClientOption.withMaxConnsPerHost n) c).retryWaitMin
        = c.retryWaitMin ∧
      (applyOption (ClientOption.withMaxConnsPerHost n) c).retryWaitMax
        = c.retryWaitMax ∧
      (applyOption (ClientOption.withMaxConnsPerHost n) c).requestDumpLogger
        = c.requestDumpLogger ∧
      (applyOption (ClientOption.withMaxConnsPerHost n) c).dumpRequestBody
        = c.dumpRequestBody) ∧
    (∀ (c : ClientConfig) (n : Int),
      (applyOption (ClientOption.withMaxRetries n) c).maxRetries = n ∧
      (applyOption (ClientOption.withMaxRetries n) c).maxIdleConns
        = c.maxIdleConns ∧
      (applyOption (ClientOption.withMaxRetries n) c).maxIdleConnsPerHost
        = c.maxIdleConnsPerHost ∧
      (applyOption (ClientOption.withMaxRetries n) c).maxConnsPerHost
        = c.maxConnsPerHost ∧
      (applyOption (ClientOption.withMaxRetries n) c).checkRetryPolicy
        = c.checkRetryPolicy ∧
      (applyOption (ClientOption.withMaxRetries n) c).retryWaitMin
        = c.retryWaitMin ∧
      (applyOption (ClientOption.withMaxRetries n) c).retryWaitMax
        = c.retryWaitMax ∧
      (applyOption (ClientOption.withMaxRetries n) c).requestDumpLogger
        = c.requestDumpLogger ∧
      (applyOption (ClientOption.withMaxRetries n) c).dumpRequestBody
        = c.dumpRequestBody) ∧
    (∀ (c : ClientConfig) (d : Int),
      (applyOption (ClientOption.withRetryWaitMin d) c).retryWaitMin = d ∧
      (applyOption (ClientOption.withRetryWaitMin d) c).maxIdleConns
        = c.maxIdleConns ∧
      (applyOption (ClientOption.withRetryWaitMin d) c).maxIdleConnsPerHost
        = c.maxIdleConnsPerHost ∧
      (applyOption (ClientOption.withRetryWaitMin d) c).maxConnsPerHost
        = c.maxConnsPerHost ∧
      (applyOption (ClientOption.withRetryWaitMin d) c).maxRetries
        = c.maxRetries ∧
      (applyOption (ClientOption.withRetryWaitMin d) c).checkRetryPolicy
        = c.checkRetryPolicy ∧
      (applyOption (ClientOption.withRetryWaitMin d) c).retryWaitMax
        = c.retryWaitMax ∧
      (applyOption (ClientOption.withRetryWaitMin d) c).requestDumpLogger
        = c.requestDumpLogger ∧
      (applyOption (ClientOption.withRetryWaitMin d) c).dumpRequestBody
        = c.dumpRequestBody) ∧
    (∀ (c : ClientConfig) (d : Int),
      (applyOption (ClientOption.withRetryWaitMax d) c).retryWaitMax = d ∧
      (applyOption (ClientOption.withRetryWaitMax d) c).maxIdleConns
        = c.maxIdleConns ∧
      (applyOption (ClientOption.withRetryWaitMax d) c).maxIdleConnsPerHost
        = c.maxIdleConnsPerHost ∧
      (applyOption (ClientOption.withRetryWaitMax d) c).maxConnsPerHost
        = c.maxConnsPerHost ∧
      (applyOption (ClientOption.withRetryWaitMax d) c).maxRetries
        = c.maxRetries ∧
      (applyOption (ClientOption.withRetryWaitMax d) c).checkRetryPolicy
        = c.checkRetryPolicy ∧
      (applyOption (ClientOption.withRetryWaitMax d) c).retryWaitMin
        = c.retryWaitMin ∧
      (applyOption (ClientOption.withRetryWaitMax d) c).requestDumpLogger
        = c.requestDumpLogger ∧
      (applyOption (ClientOption.withRetryWaitMax d) c).dumpRequestBody
        = c.dumpRequestBody) ∧
    (∀ (c : ClientConfig) (p : Option CheckRetry),
      (applyOption (ClientOption.withCheckRetryPolicy p) c).checkRetryPolicy
        = p ∧
      (applyOption (ClientOption.withCheckRetryPolicy p) c).maxIdleConns
        = c.maxIdleConns ∧
      (applyOption (ClientOption.withCheckRetryPolicy p) c).maxIdleConnsPerHost
        = c.maxIdleConnsPerHost ∧
      (applyOption (ClientOption.withCheckRetryPolicy p) c).maxConnsPerHost
        = c.maxConnsPerHost ∧
      (applyOption (ClientOption.withCheckRetryPolicy p) c).maxRetries
        = c.maxRetries ∧
      (applyOption (ClientOption.withCheckRetryPolicy p) c).retryWaitMin
        = c.retryWaitMin ∧
      (applyOption (ClientOption.withCheckRetryPolicy p) c).retryWaitMax
        = c.retryWaitMax ∧
      (applyOption (ClientOption.withCheckRetryPolicy p) c).requestDumpLogger
        = c.requestDumpLogger ∧
      (applyOption (ClientOption.withCheckRetryPolicy p) c).dumpRequestBody
        = c.dumpRequestBody) ∧
    (∀ (c : ClientConfig) (l : Option DumpLogger) (b : Bool),
      (applyOption (ClientOption.withRequestDumpLogger l b) c).requestDumpLogger
        = l ∧
      (applyOption (ClientOption.withRequestDumpLogger l b) c).dumpRequestBody
        = b ∧
      (applyOption (ClientOption.withRequestDumpLogger l b) c).maxIdleConns
        = c.maxIdleConns ∧
      (applyOption (ClientOption.withRequestDumpLogger l b) c).maxIdleConnsPerHost
        = c.maxIdleConnsPerHost ∧
      (applyOption (ClientOption.withRequestDumpLogger l b) c).maxConnsPerHost
        = c.maxConnsPerHost ∧
      (applyOption (ClientOption.withRequestDumpLogger l b) c).maxRetries
        = c.maxRetries ∧
      (applyOption (ClientOption.withRequestDumpLogger l b) c).checkRetryPolicy
        = c.checkRetryPolicy ∧
      (applyOption (ClientOption.withRequestDumpLogger l b) c).retryWaitMin
        = c.retryWaitMin ∧
      (applyOption (ClientOption.withRequestDumpLogger l b) c).retryWaitMax
        = c.retryWaitMax) ∧
    (∀ (c : RpsConfig) (l : Option DumpLogger) (b : Bool),
      (applyRpsOption (RpsOption.withRequestDumpLogger l b) c).requestDumpLogger
        = l ∧
      (applyRpsOption (RpsOption.withRequestDumpLogger l b) c).dumpRequestBody
        = b ∧
      (applyRpsOption (RpsOption.withRequestDumpLogger l b) c).rioParseToken
        = c.rioParseToken ∧
      (applyRpsOption (RpsOption.withRequestDumpLogger l b) c).rioParseBaseUrl
        = c.rioParseBaseUrl ∧
      (applyRpsOption (RpsOption.withRequestDumpLogger l b) c).checkRetryPolicy
        = c.checkRetryPolicy ∧
      (applyRpsOption (RpsOption.withRequestDumpLogger l b) c).maxIdleConns
        = c.maxIdleConns ∧
      (applyRpsOption (RpsOption.withRequestDumpLogger l b) c).maxIdleConnsPerHost
        = c.maxIdleConnsPerHost ∧
      (applyRpsOption (RpsOption.withRequestDumpLogger l b) c).maxConnsPerHost
        = c.maxConnsPerHost ∧
      (applyRpsOption (RpsOption.withRequestDumpLogger l b) c).maxRetries
        = c.maxRetries ∧
      (applyRpsOption (RpsOption.withRequestDumpLogger l b) c).retryWaitMin
        = c.retryWaitMin ∧
      (applyRpsOption (RpsOption.withRequestDumpLogger l b) c).retryWaitMax
        = c.retryWaitMax) ∧
    (∀ (c : RpsConfig) (n : Int),
      applyRpsOption (RpsOption.withMaxIdleConns n) c
        = { c with maxIdleConns := n } ∧
      applyRpsOption (RpsOption.withMaxIdleConnsPerHost n) c
        = { c with maxIdleConnsPerHost := n } ∧
      applyRpsOption (RpsOption.withMaxConnsPerHost n) c
        = { c with maxConnsPerHost := n } ∧
      applyRpsOption (RpsOption.withMaxRetries n) c
        = { c with maxRetries := n } ∧
      applyRpsOption (RpsOption.withRetryWaitMin n) c
        = { c with retryWaitMin := n } ∧
      applyRpsOption (RpsOption.withRetryWaitMax n) c
        = { c with retryWaitMax := n }) ∧
    (∀ (c : RpsConfig) (p : Option CheckRetry),
      applyRpsOption (RpsOption.withCheckRetryPolicy p) c
        = { c with checkRetryPolicy := p }) := by
  exact ⟨fun c n => ⟨rfl, rfl, rfl, rfl, rfl, rfl, rfl, rfl, rfl⟩,
    fun c n => ⟨rfl, rfl, rfl, rfl, rfl, rfl, rfl, rfl, rfl⟩,
    fun c n => ⟨rfl, rfl, rfl, rfl, rfl, rfl, rfl, rfl, rfl⟩,
    fun c n => ⟨rfl, rfl, rfl, rfl, rfl, rfl, rfl, rfl, rfl⟩,
    fun c d => ⟨rfl, rfl, rfl, rfl, rfl, rfl, rfl, rfl, rfl⟩,
    fun c d => ⟨rfl, rfl, rfl, rfl, rfl, rfl, rfl, rfl, rfl⟩,
    fun c p => ⟨rfl, rfl, rfl, rfl, rfl, rfl, rfl, rfl, rfl⟩,
    fun c l b => ⟨rfl, rfl, rfl, rfl, rfl, rfl, rfl, rfl, rfl⟩,
    fun c l b => ⟨rfl, rfl, rfl, rfl, rfl, rfl, rfl, rfl, rfl, rfl, rfl⟩,
    fun c n => ⟨rfl, rfl, rfl, rfl, rfl, rfl⟩,
    fun c p => rfl⟩

/-- C8: a dump-serialization failure is swallowed - the logger is handed
nothing - and the main request/response outcome equals the outcome of the
same client with the dump hook removed, whatever serializer that client
would use; with no dump logger configured nothing is handed to a logger
either. -/
theorem C8_dump_failure_swallowed {α : Type}
    (dumpOut : Request → Bool → Except GoErr String) (cl : PatchedClient)
    (attempt : Nat → AttemptOutcome) (req : Request) (v : Option (Decoder α)) :
    (∀ e, dumpOut req cl.cfg.dumpRequestBody = Except.error e →
      (sendRequest dumpOut cl attempt req v).dumped = none) ∧
    (∀ dumpOut2 : Request → Bool → Except GoErr String,
      mainOutcome (sendRequest dumpOut cl attempt req v)
        = mainOutcome (sendRequest dumpOut2
            { cl with cfg := { cl.cfg with requestDumpLogger := none } }
            attempt req v)) ∧
    (cl.cfg.requestDumpLogger = none →
      (sendRequest dumpOut cl attempt req v).dumped = none) := by
  refine ⟨?_, ?_, ?_⟩
  · intro e he
    cases hl : cl.cfg.requestDumpLogger <;>
      simp [sendRequest, logRequestDump, hl, he]
  · intro dumpOut2
    rfl
  · intro h
    simp [sendRequest, logRequestDump, h]

/-- Witness for C8: a client with a dump logger whose serializer fails -
nothing is handed to the logger and the main outcome matches the
logger-free client. -/
theorem C8_dump_failure_swallowed_witness :
    (sendRequest (α := Nat) (fun _ _ => Except.error { msg := "random error" })
        (New [ClientOption.withRequestDumpLogger (some (fun _ => ())) false])
        (fun _ => (some { statusCode := 200, body := { data := "7" } }, none))
        { method := "POST", url := "http://s/u", headers := [], body := "" }
        (some decNat)).dumped = none ∧
    mainOutcome (sendRequest (α := Nat)
        (fun _ _ => Except.error { msg := "random error" })
        (New [ClientOption.withRequestDumpLogger (some (fun _ => ())) false])
        (fun _ => (some { statusCode := 200, body := { data := "7" } }, none))
        { method := "POST", url := "http://s/u", headers := [], body := "" }
        (some decNat))
      = mainOutcome (sendRequest dumpRequestOut
          { New [ClientOption.withRequestDumpLogger (some (fun _ => ())) false]
              with
            cfg := { (New [ClientOption.withRequestDumpLogger
                (some (fun _ => ())) false]).cfg with
              requestDumpLogger := none } }
          (fun _ => (some { statusCode := 200, body := { data := "7" } }, none))
          { method := "POST", url := "http://s/u", headers := [], body := "" }
          (some decNat)) := by
  have h := C8_dump_failure_swallowed
    (fun _ _ => Except.error { msg := "random error" })
    (New [ClientOption.withRequestDumpLogger (some (fun _ => ())) false])
    (fun _ => (some { statusCode := 200, body := { data := "7" } }, none))
    { method := "POST", url := "http://s/u", headers := [], body := "" }
    (some decNat)
  exact ⟨h.1 { msg := "random error" } rfl, h.2.1 dumpRequestOut⟩

/-- C9: with `dump_body` disabled the dump handed to the logger is
independent of the request body (hence never contains it); with
`dump_body` enabled and a logger configured the dump is the wire header
followed by the body verbatim. -/
theorem C9_dump_body_exclusion (c : ClientConfig) (req : Request) :
    (c.dumpRequestBody = false →
      ∀ b1 b2 : String,
        logRequestDump dumpRequestOut c { req with body := b1 }
          = logRequestDump dumpRequestOut c { req with body := b2 }) ∧
    (c.dumpRequestBody = true → ∀ l, c.requestDumpLogger = some l →
      logRequestDump dumpRequestOut c req
        = some (wireHeader req ++ req.body)) := by
  constructor
  · intro hb b1 b2
    cases hl : c.requestDumpLogger <;>
      simp [logRequestDump, dumpRequestOut, hl, hb, wireHeader]
  · intro hb l hl
    simp [logRequestDump, dumpRequestOut, hl, hb]

/-- Witness for C9: with `dump_body` disabled two requests differing only
in their bodies produce the same dump; with it enabled the body appears
verbatim after the wire header. -/
theorem C9_dump_body_exclusion_witness :
    logRequestDump dumpRequestOut
        { requestDumpLogger := some (fun _ => ()), dumpRequestBody := false }
        { method := "POST", url := "http://s/u", headers := [],
          body := "secret one" }
      = logRequestDump dumpRequestOut
        { requestDumpLogger := some (fun _ => ()), dumpRequestBody := false }
        { method := "POST", url := "http://s/u", headers := [],
          body := "secret two" } ∧
    logRequestDump dumpRequestOut
        { requestDumpLogger := some (fun _ => ()), dumpRequestBody := true }
        { method := "POST", url := "http://s/u", headers := [],
          body := "payload" }
      = some (wireHeader
          { method := "POST", url := "http://s/u", headers := [],
            body := "payload" } ++ "payload") := by
  constructor
  · exact (C9_dump_body_exclusion
      { requestDumpLogger := some (fun _ => ()), dumpRequestBody := false }
      { method := "POST", url := "http://s/u", headers := [],
        body := "secret one" }).1 rfl "secret one" "secret two"
  · exact (C9_dump_body_exclusion
      { requestDumpLogger := some (fun _ => ()), dumpRequestBody := true }
      { method := "POST", url := "http://s/u", headers := [],
        body := "payload" }).2 rfl (fun _ => ()) rfl

end RPSC
